import Mathlib

/-!
Shallow embedding of the noise synthesis and playback engine
(the module exporting startNoise / stopBrownNoise / changeNoiseType /
setBrownNoiseVolume / isBrownNoisePlaying, together with its lifecycle
listeners).

Module-level mutable state of the source becomes an explicit EngineState
record threaded through the operations.  The nondeterministic random
source (Math.random) becomes an explicit sample stream parameter.  The
possibly-throwing source.stop() and the try/catch around it are embedded
in the Except monad.  Gain, frequency and sample values are modelled as
rationals.
-/

/-- The three noise types accepted by the engine. -/
inductive NoiseType
  | white
  | pink
  | brown
deriving DecidableEq, Repr

/-- The filter modes used by the source (filter.type in the Web Audio API). -/
inductive FilterMode
  | lowpass
  | highpass
deriving DecidableEq, Repr

/-- Reference to the downstream node a node's connect() call targets:
either the i-th element of the filterNodes array, the i-th element of the
gainNodes array, or the context's destination sink. -/
inductive NodeRef
  | filterRef (idx : Nat)
  | gainRef (idx : Nat)
  | destination
deriving DecidableEq, Repr

/-- A biquad filter node: type, frequency.value, Q.value, and the target of
its connect() call. -/
structure BiquadFilter where
  type : FilterMode
  frequency : ℚ
  Q : ℚ
  connectedTo : Option NodeRef
deriving DecidableEq, Repr

/-- A gain node: gain.value and the target of its connect() call. -/
structure GainNode where
  gain : ℚ
  connectedTo : Option NodeRef
deriving DecidableEq, Repr

/-- A buffer source node: its sample buffer, loop flag, whether start() was
called, whether the platform has already halted it (so that a further
stop() throws), and the target of its connect() call. -/
structure BufferSource where
  buffer : List ℚ
  loop : Bool
  started : Bool
  halted : Bool
  connectedTo : Option NodeRef
deriving DecidableEq, Repr

/-- The audio context: its sample rate and whether it is suspended. -/
structure AudioCtx where
  sampleRate : Nat
  suspended : Bool
deriving DecidableEq, Repr

/-- The module-level mutable state of the source file: audioContext,
bufferSources, gainNodes, filterNodes, isPlaying, currentVolume,
currentNoiseType. -/
structure EngineState where
  audioContext : Option AudioCtx
  bufferSources : List BufferSource
  gainNodes : List GainNode
  filterNodes : List BiquadFilter
  isPlaying : Bool
  currentVolume : ℚ
  currentNoiseType : NoiseType
deriving DecidableEq, Repr

/-- The initial values of the module-level variables:
audioContext = null, empty node arrays, isPlaying = false,
currentVolume = 0.3, currentNoiseType = 'brown'. -/
def initialState : EngineState :=
  { audioContext := none
    bufferSources := []
    gainNodes := []
    filterNodes := []
    isPlaying := false
    currentVolume := 3/10
    currentNoiseType := NoiseType.brown }

/-- initAudioContext(): creates the context lazily if absent.  The sample
rate and initial suspended flag of a freshly created context are platform
inputs, passed as parameters sr and susp. -/
def initAudioContext (sr : Nat) (susp : Bool) (s : EngineState) : EngineState :=
  match s.audioContext with
  | some _ => s
  | none => { s with audioContext := some { sampleRate := sr, suspended := susp } }

/-- The context obtained from initAudioContext, as a value. -/
def ctxOf (sr : Nat) (susp : Bool) (s : EngineState) : AudioCtx :=
  match s.audioContext with
  | some c => c
  | none => { sampleRate := sr, suspended := susp }

/-- ctx.resume() when ctx.state === 'suspended'. -/
def resumeCtx (c : AudioCtx) : AudioCtx :=
  if c.suspended then { c with suspended := false } else c

/-- generateWhiteNoiseBuffer(ctx, duration = 2): a buffer of
ctx.sampleRate * duration samples, each Math.random() * 2 - 1.  The random
stream is the explicit parameter rand. -/
def generateWhiteNoiseBuffer (rand : Nat → ℚ) (sampleRate : Nat) (duration : Nat) : List ℚ :=
  (List.range (sampleRate * duration)).map (fun i => rand i * 2 - 1)

/-- The default value of startNoise's duration argument in
generateWhiteNoiseBuffer (duration = 2). -/
def generateWhiteNoiseDefaultDuration : Nat := 2

/-- The default value of startNoise's noiseType argument ('brown'). -/
def startNoiseDefaultType : NoiseType := NoiseType.brown

/-- The default value of startNoise's volume argument (0.3). -/
def startNoiseDefaultVolume : ℚ := 3/10

/-- createPinkNoiseFilter(ctx): a highpass filter at 20 Hz (Q left at the
Web Audio default of 1).  Defined in the source but never called by
startNoise. -/
def createPinkNoiseFilter : BiquadFilter :=
  { type := FilterMode.highpass, frequency := 20, Q := 1, connectedTo := none }

/-- createBrownNoiseFilters(ctx): two lowpass filters at 1000 Hz and 500 Hz
with Q = 0.707.  Defined in the source but never called by startNoise. -/
def createBrownNoiseFilters : List BiquadFilter :=
  [ { type := FilterMode.lowpass, frequency := 1000, Q := 707/1000, connectedTo := none },
    { type := FilterMode.lowpass, frequency := 500, Q := 707/1000, connectedTo := none } ]

/-- startNoise(noiseType = 'brown', volume = 0.3): no-op if already
playing; otherwise lazily creates (and resumes) the context, records
currentVolume and currentNoiseType, generates a 2-second white-noise
buffer, builds the per-type filter chain, connects
source -> chain -> gain -> destination, starts the looping source and sets
isPlaying.  Node pushes become appends at the end of the arrays; connect()
targets are recorded via array indices. -/
def startNoise (rand : Nat → ℚ) (sr : Nat) (susp : Bool)
    (noiseType : NoiseType) (volume : ℚ) (s : EngineState) : EngineState :=
  if s.isPlaying then s
  else
    let s0 := initAudioContext sr susp s
    let ctx := resumeCtx (ctxOf sr susp s0)
    let s1 := { s0 with audioContext := some ctx
                        currentVolume := volume
                        currentNoiseType := noiseType }
    let buffer := generateWhiteNoiseBuffer rand ctx.sampleRate generateWhiteNoiseDefaultDuration
    let gi := s1.gainNodes.length
    let fi := s1.filterNodes.length
    let gainNode : GainNode := { gain := volume, connectedTo := some NodeRef.destination }
    match noiseType with
    | NoiseType.white =>
      let source : BufferSource :=
        { buffer := buffer, loop := true, started := true, halted := false
          connectedTo := some (NodeRef.gainRef gi) }
      { s1 with bufferSources := s1.bufferSources ++ [source]
                gainNodes := s1.gainNodes ++ [gainNode]
                isPlaying := true }
    | NoiseType.pink =>
      let filter : BiquadFilter :=
        { type := FilterMode.highpass, frequency := 100, Q := 707/1000
          connectedTo := some (NodeRef.gainRef gi) }
      let source : BufferSource :=
        { buffer := buffer, loop := true, started := true, halted := false
          connectedTo := some (NodeRef.filterRef fi) }
      { s1 with bufferSources := s1.bufferSources ++ [source]
                gainNodes := s1.gainNodes ++ [gainNode]
                filterNodes := s1.filterNodes ++ [filter]
                isPlaying := true }
    | NoiseType.brown =>
      let filter1 : BiquadFilter :=
        { type := FilterMode.lowpass, frequency := 500, Q := 707/1000
          connectedTo := some (NodeRef.filterRef (fi + 1)) }
      let filter2 : BiquadFilter :=
        { type := FilterMode.lowpass, frequency := 200, Q := 707/1000
          connectedTo := some (NodeRef.gainRef gi) }
      let source : BufferSource :=
        { buffer := buffer, loop := true, started := true, halted := false
          connectedTo := some (NodeRef.filterRef fi) }
      { s1 with bufferSources := s1.bufferSources ++ [source]
                gainNodes := s1.gainNodes ++ [gainNode]
                filterNodes := s1.filterNodes ++ [filter1, filter2]
                isPlaying := true }

/-- startBrownNoise(volume = 0.3): startNoise('brown', volume). -/
def startBrownNoise (rand : Nat → ℚ) (sr : Nat) (susp : Bool)
    (volume : ℚ) (s : EngineState) : EngineState :=
  startNoise rand sr susp NoiseType.brown volume s

/-- source.stop(): succeeds when the platform has not already halted the
source, throws otherwise. -/
def sourceStop (src : BufferSource) : Except Unit BufferSource :=
  if src.halted then Except.error ()
  else Except.ok { src with started := false }

/-- One iteration of the forEach body in stopBrownNoise:
try { source.stop() } catch (e) { ignore }. -/
def stopOneSource (src : BufferSource) : Except Unit BufferSource :=
  match sourceStop src with
  | Except.ok src2 => Except.ok src2
  | Except.error _ => Except.ok src

/-- bufferSources.forEach(source => try { source.stop() } catch ...). -/
def stopAllSources : List BufferSource → Except Unit Unit
  | [] => Except.ok ()
  | src :: rest => (stopOneSource src).bind (fun _ => stopAllSources rest)

/-- stopBrownNoise(): no-op if not playing; otherwise stops every buffer
source (swallowing failures), clears bufferSources, gainNodes and
filterNodes, and clears the playing flag.  An uncaught platform exception
would surface as Except.error. -/
def stopBrownNoise (s : EngineState) : Except Unit EngineState :=
  if s.isPlaying then
    (stopAllSources s.bufferSources).bind (fun _ =>
      Except.ok { s with bufferSources := []
                         gainNodes := []
                         filterNodes := []
                         isPlaying := false })
  else Except.ok s

/-- changeNoiseType(noiseType): when playing, stopBrownNoise() then
startNoise(noiseType, currentVolume); otherwise nothing. -/
def changeNoiseType (rand : Nat → ℚ) (sr : Nat) (susp : Bool)
    (noiseType : NoiseType) (s : EngineState) : Except Unit EngineState :=
  if s.isPlaying then
    (stopBrownNoise s).bind (fun s1 =>
      Except.ok (startNoise rand sr susp noiseType s1.currentVolume s1))
  else Except.ok s

/-- setBrownNoiseVolume(volume): stores the volume and writes it to every
live gain node. -/
def setBrownNoiseVolume (volume : ℚ) (s : EngineState) : EngineState :=
  { s with currentVolume := volume
           gainNodes := s.gainNodes.map (fun g => { g with gain := volume }) }

/-- isBrownNoisePlaying(): the playing flag. -/
def isBrownNoisePlaying (s : EngineState) : Bool :=
  s.isPlaying

/-- The visibilitychange listener.  hidden = document.hidden at the time of
the event.  When hidden while playing it only logs; when shown while
playing it re-obtains the context and resumes it if suspended; otherwise
nothing. -/
def onVisibilityChange (sr : Nat) (susp : Bool) (hidden : Bool)
    (s : EngineState) : EngineState :=
  if hidden && s.isPlaying then s
  else if !hidden && s.isPlaying then
    let s0 := initAudioContext sr susp s
    { s0 with audioContext := some (resumeCtx (ctxOf sr susp s0)) }
  else s

/-- The beforeunload listener: stopBrownNoise(). -/
def beforeUnloadListener (s : EngineState) : Except Unit EngineState :=
  stopBrownNoise s

/-- States reachable from the initial module state by sequences of the
public operations start, stop, changeType, setVolume. -/
inductive Reachable : EngineState → Prop
  | init : Reachable initialState
  | start (rand : Nat → ℚ) (sr : Nat) (susp : Bool) (t : NoiseType) (v : ℚ)
      {s : EngineState} :
      Reachable s → Reachable (startNoise rand sr susp t v s)
  | stop {s s2 : EngineState} :
      Reachable s → stopBrownNoise s = Except.ok s2 → Reachable s2
  | changeType (rand : Nat → ℚ) (sr : Nat) (susp : Bool) (t : NoiseType)
      {s s2 : EngineState} :
      Reachable s → changeNoiseType rand sr susp t s = Except.ok s2 → Reachable s2
  | setVolume (v : ℚ) {s : EngineState} :
      Reachable s → Reachable (setBrownNoiseVolume v s)

/-! Helper lemmas about the operations. -/

lemma initAudioContext_eq (sr : Nat) (susp : Bool) (s : EngineState) :
    initAudioContext sr susp s = { s with audioContext := some (ctxOf sr susp s) } := by
  cases s with
  | mk ac bs gn fn ip cv ct => cases ac <;> rfl

lemma startNoise_of_playing (rand : Nat → ℚ) (sr : Nat) (susp : Bool)
    (t : NoiseType) (v : ℚ) {s : EngineState} (h : s.isPlaying = true) :
    startNoise rand sr susp t v s = s := by
  simp [startNoise, h]

lemma startNoise_isPlaying (rand : Nat → ℚ) (sr : Nat) (susp : Bool)
    (t : NoiseType) (v : ℚ) (s : EngineState) :
    (startNoise rand sr susp t v s).isPlaying = true := by
  by_cases h : s.isPlaying
  · rw [startNoise_of_playing rand sr susp t v h]; exact h
  · simp only [Bool.not_eq_true] at h
    cases t <;> simp [startNoise, h, initAudioContext_eq]

lemma stopOneSource_ok (src : BufferSource) :
    stopOneSource src = Except.ok (if src.halted then src else { src with started := false }) := by
  by_cases h : src.halted <;> simp [stopOneSource, sourceStop, h]

lemma stopAllSources_ok (l : List BufferSource) : stopAllSources l = Except.ok () := by
  induction l with
  | nil => rfl
  | cons src rest ih => simp [stopAllSources, stopOneSource_ok, Except.bind, ih]

lemma stopBrownNoise_eq (s : EngineState) :
    stopBrownNoise s = Except.ok (if s.isPlaying then
        { s with bufferSources := [], gainNodes := [], filterNodes := [], isPlaying := false }
      else s) := by
  by_cases h : s.isPlaying <;>
    simp [stopBrownNoise, h, stopAllSources_ok, Except.bind]

/-- The session invariant maintained by the public operations. -/
def SessionInv (s : EngineState) : Prop :=
  (s.isPlaying = true ↔ s.bufferSources ≠ []) ∧
  (s.isPlaying = true ↔ s.gainNodes ≠ []) ∧
  (s.isPlaying = false → s.filterNodes = []) ∧
  (s.isPlaying = true → (s.filterNodes ≠ [] ↔ s.currentNoiseType ≠ NoiseType.white))

lemma sessionInv_initial : SessionInv initialState := by
  simp [SessionInv, initialState]

lemma sessionInv_start (rand : Nat → ℚ) (sr : Nat) (susp : Bool) (t : NoiseType) (v : ℚ)
    {s : EngineState} (h : SessionInv s) : SessionInv (startNoise rand sr susp t v s) := by
  by_cases hp : s.isPlaying
  · rw [startNoise_of_playing rand sr susp t v hp]; exact h
  · simp only [Bool.not_eq_true] at hp
    obtain ⟨h1, h2, h3, h4⟩ := h
    have hf : s.filterNodes = [] := h3 hp
    cases t <;>
      simp [SessionInv, startNoise, hp, hf, initAudioContext_eq]

lemma sessionInv_stop {s s2 : EngineState} (h : SessionInv s) (heq : stopBrownNoise s = Except.ok s2) :
    SessionInv s2 := by
  rw [stopBrownNoise_eq] at heq
  by_cases hp : s.isPlaying
  · simp only [hp, if_true, Except.ok.injEq] at heq
    subst heq
    simp [SessionInv]
  · simp only [hp, if_false, Except.ok.injEq] at heq
    subst heq
    exact h

lemma sessionInv_setVolume (v : ℚ) {s : EngineState} (h : SessionInv s) :
    SessionInv (setBrownNoiseVolume v s) := by
  obtain ⟨h1, h2, h3, h4⟩ := h
  refine ⟨h1, ?_, h3, h4⟩
  simpa [setBrownNoiseVolume] using h2

lemma sessionInv_changeType (rand : Nat → ℚ) (sr : Nat) (susp : Bool) (t : NoiseType)
    {s s2 : EngineState} (h : SessionInv s)
    (heq : changeNoiseType rand sr susp t s = Except.ok s2) : SessionInv s2 := by
  unfold changeNoiseType at heq
  by_cases hp : s.isPlaying
  · rw [if_pos hp, stopBrownNoise_eq, if_pos hp] at heq
    simp only [Except.bind, Except.ok.injEq] at heq
    subst heq
    exact sessionInv_start rand sr susp t _ (by simp [SessionInv])
  · rw [if_neg hp] at heq
    simp only [Except.ok.injEq] at heq
    subst heq
    exact h

lemma reachable_sessionInv {s : EngineState} (h : Reachable s) : SessionInv s := by
  induction h with
  | init => exact sessionInv_initial
  | start rand sr susp t v _ ih => exact sessionInv_start rand sr susp t v ih
  | stop _ heq ih => exact sessionInv_stop ih heq
  | changeType rand sr susp t _ heq ih => exact sessionInv_changeType rand sr susp t ih heq
  | setVolume v _ ih => exact sessionInv_setVolume v ih

/-! Claim theorems. -/

/-- Claim C1, counterexample: starting white noise from the initial state is
a one-operation sequence of public operations reaching a state where
isPlaying() is true yet the filterNodes array is empty, so the three node
sets are not all non-empty while playing. -/
theorem playing_white_has_empty_filterNodes :
    Reachable (startNoise (fun _ => 0) 1 false NoiseType.white (1/2) initialState) ∧
    (startNoise (fun _ => 0) 1 false NoiseType.white (1/2) initialState).isPlaying = true ∧
    (startNoise (fun _ => 0) 1 false NoiseType.white (1/2) initialState).filterNodes = [] :=
  ⟨Reachable.start (fun _ => 0) 1 false NoiseType.white (1/2) Reachable.init, rfl, rfl⟩

/-- Claim C1, amended: after any sequence of the public operations, the
buffer-source and gain-node sets are non-empty exactly when isPlaying()
returns true, all three node sets are empty when it returns false, and
while playing the filter-node set is non-empty exactly when the current
noise type is not white (white sessions run with zero filter stages). -/
theorem session_iff_playing {s : EngineState} (h : Reachable s) :
    (s.isPlaying = true ↔ s.bufferSources ≠ []) ∧
    (s.isPlaying = true ↔ s.gainNodes ≠ []) ∧
    (s.isPlaying = false →
      s.bufferSources = [] ∧ s.gainNodes = [] ∧ s.filterNodes = []) ∧
    (s.isPlaying = true → (s.filterNodes ≠ [] ↔ s.currentNoiseType ≠ NoiseType.white)) := by
  obtain ⟨h1, h2, h3, h4⟩ := reachable_sessionInv h
  refine ⟨h1, h2, fun hp => ⟨?_, ?_, h3 hp⟩, h4⟩
  · by_contra hb
    exact absurd (h1.mpr hb) (by simp [hp])
  · by_contra hg
    exact absurd (h2.mpr hg) (by simp [hp])

/-- Witness for session_iff_playing at the initial state. -/
theorem session_iff_playing_witness :
    Reachable initialState ∧
    ((initialState.isPlaying = true ↔ initialState.bufferSources ≠ []) ∧
     (initialState.isPlaying = true ↔ initialState.gainNodes ≠ []) ∧
     (initialState.isPlaying = false →
       initialState.bufferSources = [] ∧ initialState.gainNodes = [] ∧
       initialState.filterNodes = []) ∧
     (initialState.isPlaying = true →
       (initialState.filterNodes ≠ [] ↔ initialState.currentNoiseType ≠ NoiseType.white))) :=
  ⟨Reachable.init, session_iff_playing Reachable.init⟩

/-- Claim C2: starting from a non-playing state with no leftover nodes, the
chain built by startNoise is exactly the policy table's: white connects the
buffer source straight to the gain node with zero filter stages; pink builds
one high-pass stage at 100 Hz with Q = 0.707 feeding the gain node; brown
builds two cascaded low-pass stages at 500 Hz and 200 Hz with Q = 0.707
each, the source feeding the first, the second feeding the gain node. -/
theorem filter_chain_matches_policy (rand : Nat → ℚ) (sr : Nat) (su : Bool) (v : ℚ)
    (s : EngineState) (hp : s.isPlaying = false) (hb : s.bufferSources = [])
    (hg : s.gainNodes = []) (hf : s.filterNodes = []) :
    ((startNoise rand sr su NoiseType.white v s).filterNodes = [] ∧
     (startNoise rand sr su NoiseType.white v s).bufferSources.map
        (fun src => src.connectedTo) = [some (NodeRef.gainRef 0)] ∧
     (startNoise rand sr su NoiseType.white v s).gainNodes =
        [{ gain := v, connectedTo := some NodeRef.destination }]) ∧
    ((startNoise rand sr su NoiseType.pink v s).filterNodes =
        [{ type := FilterMode.highpass, frequency := 100, Q := 707/1000,
           connectedTo := some (NodeRef.gainRef 0) }] ∧
     (startNoise rand sr su NoiseType.pink v s).bufferSources.map
        (fun src => src.connectedTo) = [some (NodeRef.filterRef 0)] ∧
     (startNoise rand sr su NoiseType.pink v s).gainNodes =
        [{ gain := v, connectedTo := some NodeRef.destination }]) ∧
    ((startNoise rand sr su NoiseType.brown v s).filterNodes =
        [{ type := FilterMode.lowpass, frequency := 500, Q := 707/1000,
           connectedTo := some (NodeRef.filterRef 1) },
         { type := FilterMode.lowpass, frequency := 200, Q := 707/1000,
           connectedTo := some (NodeRef.gainRef 0) }] ∧
     (startNoise rand sr su NoiseType.brown v s).bufferSources.map
        (fun src => src.connectedTo) = [some (NodeRef.filterRef 0)] ∧
     (startNoise rand sr su NoiseType.brown v s).gainNodes =
        [{ gain := v, connectedTo := some NodeRef.destination }]) := by
  refine ⟨⟨?_, ?_, ?_⟩, ⟨?_, ?_, ?_⟩, ⟨?_, ?_, ?_⟩⟩ <;>
    simp [startNoise, hp, hb, hg, hf, initAudioContext_eq]

/-- Witness for filter_chain_matches_policy at the initial state. -/
theorem filter_chain_matches_policy_witness :
    (initialState.isPlaying = false ∧ initialState.bufferSources = [] ∧
     initialState.gainNodes = [] ∧ initialState.filterNodes = []) ∧
    ((startNoise (fun _ => 0) 1 false NoiseType.white (1/2) initialState).filterNodes = [] ∧
     (startNoise (fun _ => 0) 1 false NoiseType.pink (1/2) initialState).filterNodes =
        [{ type := FilterMode.highpass, frequency := 100, Q := 707/1000,
           connectedTo := some (NodeRef.gainRef 0) }] ∧
     (startNoise (fun _ => 0) 1 false NoiseType.brown (1/2) initialState).filterNodes =
        [{ type := FilterMode.lowpass, frequency := 500, Q := 707/1000,
           connectedTo := some (NodeRef.filterRef 1) },
         { type := FilterMode.lowpass, frequency := 200, Q := 707/1000,
           connectedTo := some (NodeRef.gainRef 0) }]) :=
  ⟨⟨rfl, rfl, rfl, rfl⟩,
   (filter_chain_matches_policy (fun _ => 0) 1 false (1/2) initialState
      rfl rfl rfl rfl).1.1,
   (filter_chain_matches_policy (fun _ => 0) 1 false (1/2) initialState
      rfl rfl rfl rfl).2.1.1,
   (filter_chain_matches_policy (fun _ => 0) 1 false (1/2) initialState
      rfl rfl rfl rfl).2.2.1⟩

/-- Spec-side description of changeType for the refinement claim C3: no-op
if not playing, otherwise stop() followed by start(newType, currentVolume),
with currentVolume read as the engine's stored volume before the stop. -/
def changeTypeSpec (rand : Nat → ℚ) (sr : Nat) (susp : Bool)
    (noiseType : NoiseType) (s : EngineState) : Except Unit EngineState :=
  if s.isPlaying then
    (stopBrownNoise s).bind (fun s1 =>
      Except.ok (startNoise rand sr susp noiseType s.currentVolume s1))
  else Except.ok s

/-- Claim C3: changeNoiseType coincides with the spec's stop-then-start
composition (a no-op when not playing, a full teardown and rebuild under
the new type and the stored volume when playing); in particular, calling it
with type white while playing brown yields a playing state whose rebuilt
chain has zero filter stages. -/
theorem changeType_refines_stop_start (rand : Nat → ℚ) (sr : Nat) (su : Bool)
    (t : NoiseType) (s : EngineState) :
    changeNoiseType rand sr su t s = changeTypeSpec rand sr su t s ∧
    (s.isPlaying = false → changeNoiseType rand sr su t s = Except.ok s) ∧
    (s.isPlaying = true → s.currentNoiseType = NoiseType.brown →
      ∃ s2, changeNoiseType rand sr su NoiseType.white s = Except.ok s2 ∧
        s2.isPlaying = true ∧ s2.filterNodes = []) := by
  refine ⟨?_, fun hp => by simp [changeNoiseType, hp], fun hp _ => ?_⟩
  · unfold changeNoiseType changeTypeSpec
    by_cases hp : s.isPlaying
    · rw [if_pos hp, if_pos hp, stopBrownNoise_eq, if_pos hp]
      simp [Except.bind]
    · rw [if_neg hp, if_neg hp]
  · refine ⟨startNoise rand sr su NoiseType.white
      { s with bufferSources := [], gainNodes := [], filterNodes := [],
               isPlaying := false }.currentVolume
      { s with bufferSources := [], gainNodes := [], filterNodes := [],
               isPlaying := false }, ?_, ?_, ?_⟩
    · rw [changeNoiseType, if_pos hp, stopBrownNoise_eq, if_pos hp]
      simp [Except.bind]
    · exact startNoise_isPlaying _ _ _ _ _ _
    · simp [startNoise, initAudioContext_eq]

/-- Witness for changeType_refines_stop_start: switching to white while the
engine is playing brown noise leaves it playing with no filter stages. -/
theorem changeType_refines_stop_start_witness :
    ((startNoise (fun _ => 0) 1 false NoiseType.brown (3/10) initialState).isPlaying = true ∧
     (startNoise (fun _ => 0) 1 false NoiseType.brown (3/10) initialState).currentNoiseType =
       NoiseType.brown) ∧
    ∃ s2, changeNoiseType (fun _ => 0) 1 false NoiseType.white
        (startNoise (fun _ => 0) 1 false NoiseType.brown (3/10) initialState) =
        Except.ok s2 ∧ s2.isPlaying = true ∧ s2.filterNodes = [] :=
  ⟨⟨rfl, rfl⟩,
   (changeType_refines_stop_start (fun _ => 0) 1 false NoiseType.white
      (startNoise (fun _ => 0) 1 false NoiseType.brown (3/10) initialState)).2.2 rfl rfl⟩

/-- Claim C4: start is a no-op while already playing; a second start with
any arguments leaves the state of the first start unchanged, and the first
start (from a non-playing state) records the requested type and volume. -/
theorem second_start_changes_nothing (r1 r2 : Nat → ℚ) (sr1 sr2 : Nat)
    (su1 su2 : Bool) (t t2 : NoiseType) (v v2 : ℚ) (s : EngineState) :
    startNoise r2 sr2 su2 t2 v2 (startNoise r1 sr1 su1 t v s) =
      startNoise r1 sr1 su1 t v s ∧
    (s.isPlaying = false →
      (startNoise r1 sr1 su1 t v s).currentNoiseType = t ∧
      (startNoise r1 sr1 su1 t v s).currentVolume = v) := by
  constructor
  · exact startNoise_of_playing r2 sr2 su2 t2 v2 (startNoise_isPlaying r1 sr1 su1 t v s)
  · intro hp
    cases t <;> simp [startNoise, hp, initAudioContext_eq]

/-- Witness for second_start_changes_nothing with two different argument
lists from the initial state. -/
theorem second_start_changes_nothing_witness :
    (startNoise (fun _ => 1/2) 2 true NoiseType.white (9/10)
        (startNoise (fun _ => 0) 1 false NoiseType.pink (1/2) initialState) =
      startNoise (fun _ => 0) 1 false NoiseType.pink (1/2) initialState) ∧
    (initialState.isPlaying = false ∧
     (startNoise (fun _ => 0) 1 false NoiseType.pink (1/2) initialState).currentNoiseType =
        NoiseType.pink ∧
     (startNoise (fun _ => 0) 1 false NoiseType.pink (1/2) initialState).currentVolume = 1/2) :=
  ⟨(second_start_changes_nothing (fun _ => 0) (fun _ => 1/2) 1 2 false true
      NoiseType.pink NoiseType.white (1/2) (9/10) initialState).1,
   rfl,
   (second_start_changes_nothing (fun _ => 0) (fun _ => 1/2) 1 2 false true
      NoiseType.pink NoiseType.white (1/2) (9/10) initialState).2 rfl⟩

/-- Claim C5: stopBrownNoise never raises (the try/catch swallows the
platform's already-stopped failure even when every source is halted), a
second stop is a no-op, the result is never playing, and a stop from a
playing state clears every session reference. -/
theorem stop_idempotent_never_raises (s : EngineState) :
    ∃ s1, stopBrownNoise s = Except.ok s1 ∧
      s1.isPlaying = false ∧
      stopBrownNoise s1 = Except.ok s1 ∧
      (s.isPlaying = true →
        s1.bufferSources = [] ∧ s1.gainNodes = [] ∧ s1.filterNodes = []) := by
  by_cases hp : s.isPlaying
  · have hs := stopBrownNoise_eq s
    rw [if_pos hp] at hs
    refine ⟨_, hs, rfl, ?_, fun _ => ⟨rfl, rfl, rfl⟩⟩
    rw [stopBrownNoise_eq, if_neg (by simp)]
  · simp only [Bool.not_eq_true] at hp
    have hs := stopBrownNoise_eq s
    rw [hp, if_neg (by simp)] at hs
    exact ⟨s, hs, hp, hs, fun h => absurd h (by simp [hp])⟩

/-- Witness for stop_idempotent_never_raises on a playing state whose only
buffer source the platform has already halted, so that the underlying
stop() call throws and is swallowed. -/
theorem stop_idempotent_never_raises_witness :
    ∃ s1, stopBrownNoise
        (EngineState.mk none [BufferSource.mk [] true true true none] [] [] true (3/10)
          NoiseType.brown) = Except.ok s1 ∧
      s1.isPlaying = false ∧
      stopBrownNoise s1 = Except.ok s1 ∧
      s1.bufferSources = [] ∧ s1.gainNodes = [] ∧ s1.filterNodes = [] := by
  obtain ⟨s1, h1, h2, h3, h4⟩ := stop_idempotent_never_raises
    (EngineState.mk none [BufferSource.mk [] true true true none] [] [] true (3/10)
      NoiseType.brown)
  obtain ⟨hb, hg, hf⟩ := h4 rfl
  exact ⟨s1, h1, h2, h3, hb, hg, hf⟩

/-- Claim C6, counterexample: after setVolume(0.8) while not playing, a
start() made with its source-level default arguments ('brown', 0.3) builds
the new session's gain stage at 0.3, not at the stored volume 0.8, and
overwrites the stored volume with 0.3 — start() takes its gain value from
its own volume argument, never from the stored current volume. -/
theorem start_ignores_stored_volume :
    (setBrownNoiseVolume (8/10) initialState).currentVolume = 8/10 ∧
    (startNoise (fun _ => 0) 1 false startNoiseDefaultType startNoiseDefaultVolume
        (setBrownNoiseVolume (8/10) initialState)).gainNodes.map GainNode.gain = [3/10] ∧
    (startNoise (fun _ => 0) 1 false startNoiseDefaultType startNoiseDefaultVolume
        (setBrownNoiseVolume (8/10) initialState)).currentVolume = 3/10 ∧
    (3/10 : ℚ) ≠ 8/10 := by
  refine ⟨rfl, rfl, rfl, by norm_num⟩

/-- Claim C6, amended: setVolume always updates the stored current volume
regardless of playing state; however a subsequent start() sets the new
session's gain stage from start's own volume argument and overwrites the
stored volume with it, so the stored volume only reaches a new session
through changeType, which passes currentVolume to start. -/
theorem setVolume_stored_and_start_gain (v w : ℚ) (rand : Nat → ℚ) (sr : Nat)
    (su : Bool) (t : NoiseType) (s : EngineState) :
    (setBrownNoiseVolume v s).currentVolume = v ∧
    (s.isPlaying = false → s.gainNodes = [] →
      (startNoise rand sr su t w (setBrownNoiseVolume v s)).gainNodes.map
        GainNode.gain = [w] ∧
      (startNoise rand sr su t w (setBrownNoiseVolume v s)).currentVolume = w) ∧
    (s.isPlaying = true →
      ∃ s2, changeNoiseType rand sr su t s = Except.ok s2 ∧
        s2.currentVolume = s.currentVolume ∧
        s2.gainNodes.map GainNode.gain = [s.currentVolume]) := by
  refine ⟨rfl, fun hp hg => ?_, fun hp => ?_⟩
  · cases t <;>
      simp [startNoise, setBrownNoiseVolume, hp, hg, initAudioContext_eq]
  · have hc : changeNoiseType rand sr su t s =
        Except.ok (startNoise rand sr su t s.currentVolume { s with bufferSources := [], gainNodes := [], filterNodes := [], isPlaying := false }) := by
      rw [changeNoiseType, if_pos hp, stopBrownNoise_eq, if_pos hp]
      simp [Except.bind]
    refine ⟨_, hc, ?_, ?_⟩ <;> cases t <;> simp [startNoise, initAudioContext_eq]

/-- Witness for setVolume_stored_and_start_gain: volume 0.8 stored while
idle, a start at volume 0.5 builds its gain at 0.5, and a type change while
playing keeps the stored volume in the rebuilt session. -/
theorem setVolume_stored_and_start_gain_witness :
    ((setBrownNoiseVolume (8/10) initialState).currentVolume = 8/10 ∧
     (initialState.isPlaying = false ∧ initialState.gainNodes = []) ∧
     (startNoise (fun _ => 0) 1 false NoiseType.pink (1/2)
        (setBrownNoiseVolume (8/10) initialState)).gainNodes.map GainNode.gain = [1/2]) ∧
    ((startNoise (fun _ => 0) 1 false NoiseType.brown (1/2) initialState).isPlaying = true ∧
     ∃ s2, changeNoiseType (fun _ => 0) 1 false NoiseType.pink
        (startNoise (fun _ => 0) 1 false NoiseType.brown (1/2) initialState) =
        Except.ok s2 ∧
       s2.currentVolume =
         (startNoise (fun _ => 0) 1 false NoiseType.brown (1/2) initialState).currentVolume ∧
       s2.gainNodes.map GainNode.gain =
         [(startNoise (fun _ => 0) 1 false NoiseType.brown (1/2) initialState).currentVolume]) :=
  ⟨⟨(setVolume_stored_and_start_gain (8/10) (1/2) (fun _ => 0) 1 false
       NoiseType.pink initialState).1,
    ⟨rfl, rfl⟩,
    ((setVolume_stored_and_start_gain (8/10) (1/2) (fun _ => 0) 1 false
       NoiseType.pink initialState).2.1 rfl rfl).1⟩,
   rfl,
   (setVolume_stored_and_start_gain (8/10) (1/2) (fun _ => 0) 1 false NoiseType.pink
      (startNoise (fun _ => 0) 1 false NoiseType.brown (1/2) initialState)).2.2 rfl⟩

/-- Claim C7: for any volume in [0,1], setVolume leaves the playing flag
unchanged and neither tears down nor creates a session: the buffer sources
and filter nodes are untouched and the gain-node array keeps its length
(and in particular its emptiness). -/
theorem setVolume_preserves_playing_state (v : ℚ) (s : EngineState)
    (h0 : 0 ≤ v) (h1 : v ≤ 1) :
    isBrownNoisePlaying (setBrownNoiseVolume v s) = isBrownNoisePlaying s ∧
    (setBrownNoiseVolume v s).bufferSources = s.bufferSources ∧
    (setBrownNoiseVolume v s).filterNodes = s.filterNodes ∧
    (setBrownNoiseVolume v s).gainNodes.length = s.gainNodes.length ∧
    ((setBrownNoiseVolume v s).gainNodes = [] ↔ s.gainNodes = []) := by
  refine ⟨rfl, rfl, rfl, ?_, ?_⟩ <;> simp [setBrownNoiseVolume]

/-- Witness for setVolume_preserves_playing_state at volume 1/2 on a
playing state. -/
theorem setVolume_preserves_playing_state_witness :
    ((0:ℚ) ≤ 1/2 ∧ (1/2:ℚ) ≤ 1) ∧
    (isBrownNoisePlaying (setBrownNoiseVolume (1/2)
        (startNoise (fun _ => 0) 1 false NoiseType.brown (3/10) initialState)) =
      isBrownNoisePlaying
        (startNoise (fun _ => 0) 1 false NoiseType.brown (3/10) initialState) ∧
     (setBrownNoiseVolume (1/2)
        (startNoise (fun _ => 0) 1 false NoiseType.brown (3/10) initialState)).bufferSources =
       (startNoise (fun _ => 0) 1 false NoiseType.brown (3/10) initialState).bufferSources) :=
  ⟨⟨by norm_num, by norm_num⟩,
   (setVolume_preserves_playing_state (1/2)
      (startNoise (fun _ => 0) 1 false NoiseType.brown (3/10) initialState)
      (by norm_num) (by norm_num)).1,
   (setVolume_preserves_playing_state (1/2)
      (startNoise (fun _ => 0) 1 false NoiseType.brown (3/10) initialState)
      (by norm_num) (by norm_num)).2.1⟩

/-- Claim C8: for every sample rate and duration, the white-noise generator
fills a buffer of exactly sampleRate * duration samples, each lying in
[-1, 1], provided each raw random draw lies in [0, 1) as Math.random
guarantees; the generator reads no engine state and returns only the
buffer. -/
theorem whiteNoiseBuffer_length_and_bounds (rand : Nat → ℚ) (sr dur : Nat)
    (h : ∀ i, 0 ≤ rand i ∧ rand i < 1) :
    (generateWhiteNoiseBuffer rand sr dur).length = sr * dur ∧
    ∀ x ∈ generateWhiteNoiseBuffer rand sr dur, -1 ≤ x ∧ x ≤ 1 := by
  constructor
  · simp [generateWhiteNoiseBuffer]
  · intro x hx
    simp only [generateWhiteNoiseBuffer, List.mem_map, List.mem_range] at hx
    obtain ⟨i, _, rfl⟩ := hx
    obtain ⟨hge, hlt⟩ := h i
    constructor <;> linarith

/-- Witness for whiteNoiseBuffer_length_and_bounds with the constant draw
1/2 at sample rate 2 and duration 3. -/
theorem whiteNoiseBuffer_length_and_bounds_witness :
    (∀ i : Nat, (0:ℚ) ≤ (fun _ : Nat => (1:ℚ)/2) i ∧ (fun _ : Nat => (1:ℚ)/2) i < 1) ∧
    (generateWhiteNoiseBuffer (fun _ => 1/2) 2 3).length = 2 * 3 ∧
    ∀ x ∈ generateWhiteNoiseBuffer (fun _ => 1/2) 2 3, -1 ≤ x ∧ x ≤ 1 :=
  ⟨fun _ => ⟨by norm_num, by norm_num⟩,
   whiteNoiseBuffer_length_and_bounds (fun _ => 1/2) 2 3
     (fun _ => ⟨by norm_num, by norm_num⟩)⟩

/-- Claim C9: while playing, the hidden-direction visibilitychange event
changes nothing at all in the engine state, and the beforeunload listener
performs the stop: afterwards the engine is not playing and every session
reference is cleared. -/
theorem hidden_keeps_playing_unload_stops (sr : Nat) (su : Bool) (s : EngineState)
    (h : s.isPlaying = true) :
    onVisibilityChange sr su true s = s ∧
    ∃ s2, beforeUnloadListener s = Except.ok s2 ∧ s2.isPlaying = false ∧
      s2.bufferSources = [] ∧ s2.gainNodes = [] ∧ s2.filterNodes = [] := by
  constructor
  · simp [onVisibilityChange, h]
  · have hs := stopBrownNoise_eq s
    rw [if_pos h] at hs
    exact ⟨_, hs, rfl, rfl, rfl, rfl⟩

/-- Witness for hidden_keeps_playing_unload_stops on a playing brown-noise
state. -/
theorem hidden_keeps_playing_unload_stops_witness :
    (startNoise (fun _ => 0) 1 false NoiseType.brown (3/10) initialState).isPlaying = true ∧
    onVisibilityChange 1 false true
        (startNoise (fun _ => 0) 1 false NoiseType.brown (3/10) initialState) =
      startNoise (fun _ => 0) 1 false NoiseType.brown (3/10) initialState ∧
    ∃ s2, beforeUnloadListener
        (startNoise (fun _ => 0) 1 false NoiseType.brown (3/10) initialState) =
        Except.ok s2 ∧ s2.isPlaying = false ∧
      s2.bufferSources = [] ∧ s2.gainNodes = [] ∧ s2.filterNodes = [] :=
  ⟨rfl,
   (hidden_keeps_playing_unload_stops 1 false
      (startNoise (fun _ => 0) 1 false NoiseType.brown (3/10) initialState) rfl).1,
   (hidden_keeps_playing_unload_stops 1 false
      (startNoise (fun _ => 0) 1 false NoiseType.brown (3/10) initialState) rfl).2⟩

/-- Claim C10: changeNoiseType while not playing returns the state
untouched — in particular the stored current noise type is not updated —
while setVolume does update the stored volume even when not playing. -/
theorem changeType_noop_when_idle (rand : Nat → ℚ) (sr : Nat) (su : Bool)
    (t : NoiseType) (w : ℚ) (s : EngineState) (h : s.isPlaying = false) :
    changeNoiseType rand sr su t s = Except.ok s ∧
    (setBrownNoiseVolume w s).currentVolume = w := by
  exact ⟨by simp [changeNoiseType, h], rfl⟩

/-- Witness for changeType_noop_when_idle: changing to white while idle
leaves the initial state (whose stored type is brown) unchanged. -/
theorem changeType_noop_when_idle_witness :
    initialState.isPlaying = false ∧
    (changeNoiseType (fun _ => 0) 1 false NoiseType.white initialState =
       Except.ok initialState ∧
     (setBrownNoiseVolume (1/2) initialState).currentVolume = 1/2) ∧
    initialState.currentNoiseType = NoiseType.brown :=
  ⟨rfl,
   changeType_noop_when_idle (fun _ => 0) 1 false NoiseType.white (1/2) initialState rfl,
   rfl⟩
